import Mathlib

/-!
Shallow embedding of `data_validation/config_manager.py`.

The configuration document is a Python dict keyed by the string constants of
the `consts` module; we model it as a record whose fields are the possible
keys, with `none` standing for an absent key.  Python raising is modelled by
`Except Err`; Python's truthiness-based `x or y` on strings and lists is
modelled by explicit helpers (`none` and the empty string / empty list are
falsy).  The two ibis handles (`source_table`, `target_table`) are modelled
as records exposing exactly what the code reads from them: `.columns`,
`.op().name`, and `str(table[column].type())`.  The builder methods never
assign to `self` or to `self._config` in the source; we translate them in
state-passing style (the post-state is part of the result) so that the
absence of mutation is a stated theorem rather than an artefact.
`logging.info` calls are modelled by a list of emitted log lines in the
aggregates builder's result.
-/

namespace DataValidation

/-- The keys of the configuration document / table-identity record
(the constants of the `consts` module). -/
inductive ConfigKey where
  | config_type
  | source_conn
  | target_conn
  | schema_name
  | table_name
  | target_schema_name
  | target_table_name
  | aggregates
  | grouped_columns
  | limit
deriving DecidableEq

/-- Python exceptions this module can raise or propagate: `KeyError` from a
required dict lookup, `ValueError` raised by `build_config_grouped_columns`,
`NameError` from evaluating an unbound global name, and whatever an ibis
client raises when a table cannot be resolved. -/
inductive Err where
  | keyError (k : ConfigKey)
  | valueError (msg : String)
  | nameError (name : String)
  | clientError (msg : String)
deriving DecidableEq

/-- An ibis table handle, as far as this module reads it: `.columns` (the
ordered column list), `.op().name`, and `str(table[column].type())`. -/
structure Table where
  name : String
  columns : List String
  colType : String → String

/-- An ibis client, as far as this module uses it:
`client.table(table_name, database=schema_name)`. -/
structure Client where
  table : String → String → Except Err Table

/-- An aggregate descriptor: the dict built by `build_config_aggregates`
(keys CONFIG_SOURCE_COLUMN, CONFIG_TARGET_COLUMN, CONFIG_FIELD_ALIAS,
CONFIG_TYPE). -/
structure AggregateConfig where
  source_column : String
  target_column : String
  field_alias : String
  config_type : String
deriving DecidableEq

/-- A grouped-column descriptor: the dict built by
`build_config_grouped_columns` (keys CONFIG_SOURCE_COLUMN,
CONFIG_TARGET_COLUMN, CONFIG_FIELD_ALIAS, CONFIG_CAST). -/
structure GroupedColumnConfig where
  source_column : String
  target_column : String
  field_alias : String
  cast : Option String
deriving DecidableEq

/-- The configuration document `self._config`: a dict with the consts-named
keys; an absent key is `none`. -/
structure Config where
  config_type : Option String := none
  source_conn : Option String := none
  target_conn : Option String := none
  schema_name : Option String := none
  table_name : Option String := none
  target_schema_name : Option String := none
  target_table_name : Option String := none
  aggregates : Option (List AggregateConfig) := none
  grouped_columns : Option (List GroupedColumnConfig) := none
  limit : Option Int := none

/-- The table-identity record (`table_obj`) passed to
`build_config_manager`: a dict read at the schema/table keys. -/
structure TableObj where
  schema_name : Option String := none
  table_name : Option String := none
  target_schema_name : Option String := none
  target_table_name : Option String := none

/-- `d[k]` on a dict: the value, or `KeyError(k)` when the key is absent. -/
def dictGet (o : Option String) (k : ConfigKey) : Except Err String :=
  match o with
  | some s => Except.ok s
  | none => Except.error (Err.keyError k)

/-- Python `d.get(k) or fallback` for a string-valued key: `None` (absent)
and the empty string are falsy and select the fallback. -/
def pyOrStr (o : Option String) (fallback : String) : String :=
  match o with
  | none => fallback
  | some s => if s = "" then fallback else s

/-- Python `d.get(k) or []` for a list-valued key: `None` (absent) and the
empty list are falsy and select `[]`. -/
def pyOrList {α : Type} : Option (List α) → List α
  | none => []
  | some [] => []
  | some l => l

/-- `get_source_schema`: `self._config[consts.CONFIG_SCHEMA_NAME]`. -/
def Config.get_source_schema (c : Config) : Except Err String :=
  dictGet c.schema_name ConfigKey.schema_name

/-- `get_source_table`: `self._config[consts.CONFIG_TABLE_NAME]`. -/
def Config.get_source_table (c : Config) : Except Err String :=
  dictGet c.table_name ConfigKey.table_name

/-- `get_target_schema`: `self._config.get(consts.CONFIG_TARGET_SCHEMA_NAME)
or self._config[consts.CONFIG_SCHEMA_NAME]`.  The required source-side
lookup is evaluated only when the target-side value is falsy. -/
def Config.get_target_schema (c : Config) : Except Err String :=
  match c.target_schema_name with
  | none => c.get_source_schema
  | some s => if s = "" then c.get_source_schema else Except.ok s

/-- `get_target_table`: `self._config.get(consts.CONFIG_TARGET_TABLE_NAME)
or self._config[consts.CONFIG_TABLE_NAME]`. -/
def Config.get_target_table (c : Config) : Except Err String :=
  match c.target_table_name with
  | none => c.get_source_table
  | some s => if s = "" then c.get_source_table else Except.ok s

/-- `get_validation_type`: `self._config[consts.CONFIG_TYPE]`. -/
def Config.get_validation_type (c : Config) : Except Err String :=
  dictGet c.config_type ConfigKey.config_type

/-- `get_query_limit`: `self._config.get(consts.CONFIG_LIMIT)` (may be
absent, returning Python `None`, modelled by `none`). -/
def Config.get_query_limit (c : Config) : Option Int :=
  c.limit

/-- A constructed `ConfigManager`: the document, the two stored clients, the
two table handles resolved in `__init__`, and the `verbose` flag. -/
structure ConfigManager where
  _config : Config
  source_client : Client
  target_client : Client
  source_table : Table
  target_table : Table
  verbose : Bool

/-- `ConfigManager.__init__`: stores the document and both clients, then
resolves `source_table` and `target_table` — both through
`self.source_client.table(...)` (lines 40-41 of the source; the target
client is stored but not consulted).  Each lookup is evaluated in source
order and a raise aborts construction. -/
def ConfigManager.init (config : Config) (source_client target_client : Client)
    (verbose : Bool) : Except Err ConfigManager :=
  match config.get_source_table with
  | Except.error e => Except.error e
  | Except.ok st =>
    match config.get_source_schema with
    | Except.error e => Except.error e
    | Except.ok ss =>
      match source_client.table st ss with
      | Except.error e => Except.error e
      | Except.ok source_table =>
        match config.get_target_table with
        | Except.error e => Except.error e
        | Except.ok tt =>
          match config.get_target_schema with
          | Except.error e => Except.error e
          | Except.ok ts =>
            match source_client.table tt ts with
            | Except.error e => Except.error e
            | Except.ok target_table =>
              Except.ok
                { _config := config
                  source_client := source_client
                  target_client := target_client
                  source_table := source_table
                  target_table := target_table
                  verbose := verbose }

/-- `get_config`. -/
def ConfigManager.get_config (m : ConfigManager) : Config :=
  m._config

/-- `get_aggregates`: `self._config.get(consts.CONFIG_AGGREGATES) or []`. -/
def ConfigManager.get_aggregates (m : ConfigManager) : List AggregateConfig :=
  pyOrList m._config.aggregates

/-- `append_aggregates`: stores `self.get_aggregates() + aggregate_configs`
back under the aggregates key. -/
def ConfigManager.append_aggregates (m : ConfigManager)
    (aggregate_configs : List AggregateConfig) : ConfigManager :=
  { m with _config :=
      { m._config with aggregates := some (m.get_aggregates ++ aggregate_configs) } }

/-- `get_query_groups`: `self._config.get(consts.CONFIG_GROUPED_COLUMNS) or []`. -/
def ConfigManager.get_query_groups (m : ConfigManager) : List GroupedColumnConfig :=
  pyOrList m._config.grouped_columns

/-- `append_query_groups`: stores `self.get_query_groups() +
grouped_column_configs` back under the grouped-columns key. -/
def ConfigManager.append_query_groups (m : ConfigManager)
    (grouped_column_configs : List GroupedColumnConfig) : ConfigManager :=
  { m with _config :=
      { m._config with grouped_columns := some (m.get_query_groups ++ grouped_column_configs) } }

/-- `get_target_schema` method (delegates to the document). -/
def ConfigManager.get_target_schema (m : ConfigManager) : Except Err String :=
  m._config.get_target_schema

/-- `get_target_table` method (delegates to the document). -/
def ConfigManager.get_target_table (m : ConfigManager) : Except Err String :=
  m._config.get_target_table

/-- `build_config_manager` (static): builds the minimal document from the
table-identity record — reading the two required keys with `[]` (KeyError on
absence, in source evaluation order) and defaulting the target-side names
with Python `or` — then constructs a `ConfigManager` from it. -/
def ConfigManager.build_config_manager (config_type source_conn target_conn : String)
    (source_client target_client : Client) (table_obj : TableObj) (verbose : Bool) :
    Except Err ConfigManager :=
  match dictGet table_obj.schema_name ConfigKey.schema_name with
  | Except.error e => Except.error e
  | Except.ok ss =>
    match dictGet table_obj.table_name ConfigKey.table_name with
    | Except.error e => Except.error e
    | Except.ok tn =>
      ConfigManager.init
        { config_type := some config_type
          source_conn := some source_conn
          target_conn := some target_conn
          schema_name := some ss
          table_name := some tn
          target_schema_name := some (pyOrStr table_obj.target_schema_name ss)
          target_table_name := some (pyOrStr table_obj.target_table_name tn)
          aggregates := none
          grouped_columns := none
          limit := none }
        source_client target_client verbose

/-- The descriptor dict built for one grouped column: source, target and
alias are all the column name; cast is `None`. -/
def groupedColumnConfig (column : String) : GroupedColumnConfig :=
  { source_column := column
    target_column := column
    field_alias := column
    cast := none }

/-- The `ValueError` raised by `build_config_grouped_columns`:
`f"GroupedColumn DNE: {self.source_table.op().name}.{column}"`. -/
def groupedColumnError (tableName column : String) : Err :=
  Err.valueError s!"GroupedColumn DNE: {tableName}.{column}"

/-- The loop of `build_config_grouped_columns`, with the accumulator list
`grouped_column_configs` made explicit: check membership in the source
columns, raise on the first absent name, otherwise append the descriptor. -/
def groupedLoop (m : ConfigManager) :
    List String → List GroupedColumnConfig → Except Err (List GroupedColumnConfig)
  | [], acc => Except.ok acc
  | column :: rest, acc =>
    if column ∈ m.source_table.columns then
      groupedLoop m rest (acc ++ [groupedColumnConfig column])
    else
      Except.error (groupedColumnError m.source_table.name column)

/-- `build_config_grouped_columns`.  The method never assigns to `self` or
to the document, so the post-state (second component) is the input state. -/
def ConfigManager.build_config_grouped_columns (m : ConfigManager)
    (grouped_columns : List String) :
    Except Err (List GroupedColumnConfig) × ConfigManager :=
  (groupedLoop m grouped_columns [], m)

/-- The descriptor dict built for one aggregate column, with alias
`f"{agg_type}__{column}"` and the aggregate type tag under CONFIG_TYPE. -/
def aggregateConfig (agg_type column : String) : AggregateConfig :=
  { source_column := column
    target_column := column
    field_alias := s!"{agg_type}__{column}"
    config_type := agg_type }

/-- The `logging.info` line emitted when a column is absent from the target
table: `f"Skipping Agg {agg_type}: {self.source_table.op().name}.{column}"`. -/
def aggregateSkipLog (agg_type tableName column : String) : String :=
  s!"Skipping Agg {agg_type}: {tableName}.{column}"

/-- The skip test `supported_types and str(self.source_table[column].type())
not in supported_types`: a falsy `supported_types` (absent, or an empty
collection) short-circuits to no exclusion. -/
def typeExcluded : Option (List String) → String → Bool
  | none, _ => false
  | some [], _ => false
  | some (t :: ts), ty => ! decide (ty ∈ t :: ts)

/-- The loop of `build_config_aggregates`: iterate the source columns in
order; `continue` on a column outside the whitelist; `continue` with a
`logging.info` line on a column absent from the target; `continue` silently
on a type-whitelist miss; otherwise emit the descriptor.  Returns the
emitted descriptors and the emitted log lines. -/
def aggLoop (m : ConfigManager) (agg_type : String) (whitelist_columns : List String)
    (supported_types : Option (List String)) :
    List String → List AggregateConfig × List String
  | [] => ([], [])
  | column :: rest =>
    if column ∉ whitelist_columns then
      aggLoop m agg_type whitelist_columns supported_types rest
    else if column ∉ m.target_table.columns then
      ((aggLoop m agg_type whitelist_columns supported_types rest).1,
        aggregateSkipLog agg_type m.source_table.name column ::
          (aggLoop m agg_type whitelist_columns supported_types rest).2)
    else if typeExcluded supported_types (m.source_table.colType column) then
      aggLoop m agg_type whitelist_columns supported_types rest
    else
      (aggregateConfig agg_type column ::
          (aggLoop m agg_type whitelist_columns supported_types rest).1,
        (aggLoop m agg_type whitelist_columns supported_types rest).2)

/-- `build_config_aggregates`.  Line 130 of the source computes the working
whitelist as `self.source_table.columns if arg_value == "*" else
json.loads(arg_value)`; the module never imports `json`, so evaluating the
non-wildcard branch raises `NameError("json")` before any parsing happens.
The method never assigns to `self` or to the document, so the post-state is
the input state; the third component is the list of emitted log lines. -/
def ConfigManager.build_config_aggregates (m : ConfigManager)
    (agg_type arg_value : String) (supported_types : Option (List String)) :
    Except Err (List AggregateConfig) × ConfigManager × List String :=
  if arg_value = "*" then
    (Except.ok
        (aggLoop m agg_type m.source_table.columns supported_types
          m.source_table.columns).1,
      m,
      (aggLoop m agg_type m.source_table.columns supported_types
        m.source_table.columns).2)
  else
    (Except.error (Err.nameError "json"), m, [])

/-- Spec-side type test for claim C1: when a type whitelist is supplied (a
nonempty whitelist; an absent or empty one imposes no restriction), the
source-declared type must be a member of it. -/
def specTypeOk : Option (List String) → String → Bool
  | none, _ => true
  | some [], _ => true
  | some (t :: ts), ty => decide (ty ∈ t :: ts)

/-- Spec-side description of the wildcard aggregate build (claim C1): in
source-schema column order, one descriptor for each source column that is
also a target column and passes the type whitelist. -/
def specWildcardAggregates (m : ConfigManager) (agg_type : String)
    (supported_types : Option (List String)) : List AggregateConfig :=
  (m.source_table.columns.filter fun c =>
      decide (c ∈ m.target_table.columns) &&
        specTypeOk supported_types (m.source_table.colType c)).map
    (aggregateConfig agg_type)

/-- A concrete source table handle: columns `a : int64`, `b : string`. -/
def srcTableEx : Table :=
  { name := "tbl"
    columns := ["a", "b"]
    colType := fun c => if c = "a" then "int64" else "string" }

/-- A concrete target table handle holding only column `a`. -/
def tgtTableEx : Table :=
  { name := "tbl_t"
    columns := ["a"]
    colType := fun _ => "int64" }

/-- A client that resolves every table, naming it `schema.table`. -/
def clientEx : Client :=
  { table := fun n d =>
      Except.ok { name := d ++ "." ++ n, columns := ["a", "b"], colType := fun _ => "int64" } }

/-- A client that fails every resolution. -/
def clientErrEx : Client :=
  { table := fun _ _ => Except.error (Err.clientError "resolve failed") }

/-- A concrete document with target table set and target schema absent. -/
def configEx : Config :=
  { schema_name := some "db", table_name := some "tbl", target_table_name := some "tbl_t" }

/-- The manager `ConfigManager.init configEx clientEx clientEx false` builds. -/
def mEx : ConfigManager :=
  { _config := configEx
    source_client := clientEx
    target_client := clientEx
    source_table := { name := "db.tbl", columns := ["a", "b"], colType := fun _ => "int64" }
    target_table := { name := "db.tbl_t", columns := ["a", "b"], colType := fun _ => "int64" }
    verbose := false }

/-- A concrete manager over `srcTableEx`/`tgtTableEx`, with no aggregates or
grouped columns stored yet, an explicit nonempty target schema, and no
target table key. -/
def cmEx : ConfigManager :=
  { _config :=
      { config_type := some "Column"
        source_conn := some "src"
        target_conn := some "tgt"
        schema_name := some "db"
        table_name := some "tbl"
        target_schema_name := some "db2" }
    source_client := clientEx
    target_client := clientEx
    source_table := srcTableEx
    target_table := tgtTableEx
    verbose := false }

/-- A concrete table-identity record: target schema absent, target table
present but empty (both must default to the source-side values). -/
def tobEx : TableObj :=
  { schema_name := some "db", table_name := some "tbl", target_table_name := some "" }

/-- The document `build_config_manager` derives from `tobEx`. -/
def config8Ex : Config :=
  { config_type := some "Column"
    source_conn := some "sc"
    target_conn := some "tc"
    schema_name := some "db"
    table_name := some "tbl"
    target_schema_name := some "db"
    target_table_name := some "tbl" }

/-- The manager `build_config_manager` produces from `tobEx` with source
client `clientEx` and (unused for resolution) target client `clientErrEx`. -/
def m8Ex : ConfigManager :=
  { _config := config8Ex
    source_client := clientEx
    target_client := clientErrEx
    source_table := { name := "db.tbl", columns := ["a", "b"], colType := fun _ => "int64" }
    target_table := { name := "db.tbl", columns := ["a", "b"], colType := fun _ => "int64" }
    verbose := false }

/-- A concrete aggregate-descriptor list. -/
def aggsEx : List AggregateConfig :=
  [aggregateConfig "sum" "a"]

/-- A concrete grouped-column-descriptor list. -/
def groupsEx : List GroupedColumnConfig :=
  [groupedColumnConfig "a"]

/-! ## Helper lemmas -/

theorem pyOrList_some {α : Type} (l : List α) : pyOrList (some l) = l := by
  cases l <;> rfl

theorem pyOrList_none {α : Type} : pyOrList (α := α) none = [] := rfl

theorem specTypeOk_eq_not_typeExcluded (stw : Option (List String)) (ty : String) :
    specTypeOk stw ty = ! typeExcluded stw ty := by
  cases stw with
  | none => rfl
  | some l => cases l with
    | nil => rfl
    | cons t ts => simp [specTypeOk, typeExcluded]

/-- On a column list contained in the whitelist, the aggregate loop emits
exactly the filtered-and-mapped descriptors of claim C1's description. -/
theorem aggLoop_fst (m : ConfigManager) (agg_type : String) (wl : List String)
    (stw : Option (List String)) :
    ∀ cols : List String, (∀ c ∈ cols, c ∈ wl) →
      (aggLoop m agg_type wl stw cols).1 =
        (cols.filter fun c => decide (c ∈ m.target_table.columns) &&
          specTypeOk stw (m.source_table.colType c)).map (aggregateConfig agg_type) := by
  intro cols
  induction cols with
  | nil => intro _; rfl
  | cons c rest ih =>
    intro h
    have hc : c ∈ wl := h c (List.mem_cons_self c rest)
    have hr := ih fun x hx => h x (List.mem_cons_of_mem c hx)
    simp only [aggLoop]
    rw [if_neg (by simp [hc])]
    by_cases ht : c ∈ m.target_table.columns
    · rw [if_neg (by simp [ht])]
      by_cases hx : typeExcluded stw (m.source_table.colType c) = true
      · rw [if_pos hx, List.filter_cons, hr]
        have hfalse : (decide (c ∈ m.target_table.columns) &&
            specTypeOk stw (m.source_table.colType c)) = false := by
          simp [specTypeOk_eq_not_typeExcluded, hx]
        rw [hfalse]
        simp
      · rw [if_neg hx, List.filter_cons, hr]
        have htrue : (decide (c ∈ m.target_table.columns) &&
            specTypeOk stw (m.source_table.colType c)) = true := by
          simp [specTypeOk_eq_not_typeExcluded, ht]
          simpa using hx
        rw [htrue]
        simp
    · rw [if_pos (by simpa using ht), List.filter_cons, hr]
      have hfalse : (decide (c ∈ m.target_table.columns) &&
          specTypeOk stw (m.source_table.colType c)) = false := by
        simp [ht]
      rw [hfalse]
      simp

/-! ## Claims -/

/-- C1: with the wildcard selection `"*"`, `build_config_aggregates` returns
(never raises) the descriptors for exactly the source columns that are also
target columns and pass the optional type whitelist, in source-schema column
order, each descriptor having source = target = the column name, alias
`"{agg_type}__{column}"` and type the aggregate tag; an empty result is a
valid empty sequence, not an error. -/
theorem C1_wildcard_aggregates (m : ConfigManager) (agg_type : String)
    (supported_types : Option (List String)) :
    (m.build_config_aggregates agg_type "*" supported_types).1 =
      Except.ok (specWildcardAggregates m agg_type supported_types) := by
  simp only [ConfigManager.build_config_aggregates, if_pos rfl, specWildcardAggregates]
  rw [aggLoop_fst m agg_type m.source_table.columns supported_types
    m.source_table.columns fun c hc => hc]
  simp

/-- On a column list contained in the source columns, the grouped loop
appends one descriptor per requested name onto the accumulator. -/
theorem groupedLoop_ok (m : ConfigManager) :
    ∀ (cols : List String) (acc : List GroupedColumnConfig),
      (∀ c ∈ cols, c ∈ m.source_table.columns) →
      groupedLoop m cols acc = Except.ok (acc ++ cols.map groupedColumnConfig) := by
  intro cols
  induction cols with
  | nil => intro acc _; simp [groupedLoop]
  | cons c rest ih =>
    intro acc h
    have hc : c ∈ m.source_table.columns := h c (List.mem_cons_self c rest)
    simp only [groupedLoop, if_pos hc]
    rw [ih (acc ++ [groupedColumnConfig c]) fun x hx => h x (List.mem_cons_of_mem c hx)]
    simp

/-- When some requested name is absent from the source columns, the grouped
loop raises the `ValueError` naming the source table and an absent column,
whatever the accumulator holds. -/
theorem groupedLoop_error (m : ConfigManager) :
    ∀ (cols : List String) (acc : List GroupedColumnConfig),
      (∃ c ∈ cols, c ∉ m.source_table.columns) →
      ∃ c, c ∈ cols ∧ c ∉ m.source_table.columns ∧
        groupedLoop m cols acc = Except.error (groupedColumnError m.source_table.name c) := by
  intro cols
  induction cols with
  | nil =>
    intro acc h
    rcases h with ⟨c, hc, _⟩
    exact absurd hc (List.not_mem_nil c)
  | cons c rest ih =>
    intro acc h
    by_cases hc : c ∈ m.source_table.columns
    · have hrest : ∃ x ∈ rest, x ∉ m.source_table.columns := by
        rcases h with ⟨x, hx, hnx⟩
        rcases List.mem_cons.mp hx with hx' | hx'
        · exact absurd (hx' ▸ hc) hnx
        · exact ⟨x, hx', hnx⟩
      rcases ih (acc ++ [groupedColumnConfig c]) hrest with ⟨x, hx, hnx, heq⟩
      refine ⟨x, List.mem_cons_of_mem c hx, hnx, ?_⟩
      simp only [groupedLoop, if_pos hc]
      exact heq
    · exact ⟨c, List.mem_cons_self c rest, hc, by simp only [groupedLoop, if_neg hc]⟩

/-- C2 evidence: any explicit (non-wildcard) selection — here the perfectly
parseable serialized list `["a"]` — makes `build_config_aggregates` raise
`NameError("json")`, because line 130 evaluates `json.loads` and the module
never imports `json`; no `InvalidSelectionError`/parse path is reachable. -/
theorem C2_explicit_selection_raises_name_error :
    (cmEx.build_config_aggregates "sum" "[\"a\"]" none).1 =
      Except.error (Err.nameError "json") := rfl

/-- C4: when some requested grouped-column name is absent from the source
schema, `build_config_grouped_columns` fails with the `ValueError`
identifying the source table and an offending column, returning no partial
descriptor list. -/
theorem C4_grouped_columns_missing_name (m : ConfigManager) (grouped_columns : List String)
    (h : ∃ c ∈ grouped_columns, c ∉ m.source_table.columns) :
    ∃ c, c ∈ grouped_columns ∧ c ∉ m.source_table.columns ∧
      (m.build_config_grouped_columns grouped_columns).1 =
        Except.error (groupedColumnError m.source_table.name c) :=
  groupedLoop_error m grouped_columns [] h

/-- C4 witness: requesting `["a", "zz"]` against source columns
`["a", "b"]` fails with the table-and-column-naming error. -/
theorem C4_witness :
    (∃ c ∈ ["a", "zz"], c ∉ cmEx.source_table.columns) ∧
    ∃ c, c ∈ ["a", "zz"] ∧ c ∉ cmEx.source_table.columns ∧
      (cmEx.build_config_grouped_columns ["a", "zz"]).1 =
        Except.error (groupedColumnError cmEx.source_table.name c) :=
  ⟨⟨"zz", by decide, by decide⟩,
    C4_grouped_columns_missing_name cmEx ["a", "zz"] ⟨"zz", by decide, by decide⟩⟩

/-- C6: when every requested name occurs in the source columns,
`build_config_grouped_columns` returns one descriptor per requested name in
request order (duplicates preserved), each with source = target = alias =
the name and no cast; the target schema plays no part in the result. -/
theorem C6_grouped_columns_all_present (m : ConfigManager) (grouped_columns : List String)
    (h : ∀ c ∈ grouped_columns, c ∈ m.source_table.columns) :
    (m.build_config_grouped_columns grouped_columns).1 =
      Except.ok (grouped_columns.map groupedColumnConfig) :=
  groupedLoop_ok m grouped_columns [] h

/-- C6 witness: the duplicate request `["a", "a"]` yields two descriptors
for `a`. -/
theorem C6_witness :
    (∀ c ∈ ["a", "a"], c ∈ cmEx.source_table.columns) ∧
    (cmEx.build_config_grouped_columns ["a", "a"]).1 =
      Except.ok [groupedColumnConfig "a", groupedColumnConfig "a"] :=
  ⟨by decide, C6_grouped_columns_all_present cmEx ["a", "a"] (by decide)⟩

/-- C7: `append_aggregates` and `append_query_groups` are pure accumulators:
appending A then B leaves exactly the state one append of `A ++ B` leaves
(order preserved, no deduplication, nothing else of the manager changed). -/
theorem C7_append_twice_eq_append_concat (m : ConfigManager)
    (A B : List AggregateConfig) (Aq Bq : List GroupedColumnConfig) :
    (m.append_aggregates A).append_aggregates B = m.append_aggregates (A ++ B) ∧
    (m.append_query_groups Aq).append_query_groups Bq = m.append_query_groups (Aq ++ Bq) := by
  constructor
  · simp [ConfigManager.append_aggregates, ConfigManager.get_aggregates, pyOrList_some,
      List.append_assoc]
  · simp [ConfigManager.append_query_groups, ConfigManager.get_query_groups, pyOrList_some,
      List.append_assoc]

/-- C9: appending X onto a document with no aggregates key stores exactly X;
in general the getters return the stored sequence, or the empty sequence
when the key is absent, and are total (no failure, no null marker). -/
theorem C9_get_append_round_trip (m : ConfigManager)
    (X : List AggregateConfig) (Y : List GroupedColumnConfig) :
    (m._config.aggregates = none → (m.append_aggregates X).get_aggregates = X) ∧
    (∀ l, m._config.aggregates = some l → m.get_aggregates = l) ∧
    (m._config.aggregates = none → m.get_aggregates = []) ∧
    (m._config.grouped_columns = none → (m.append_query_groups Y).get_query_groups = Y) ∧
    (∀ l, m._config.grouped_columns = some l → m.get_query_groups = l) ∧
    (m._config.grouped_columns = none → m.get_query_groups = []) := by
  refine ⟨?_, ?_, ?_, ?_, ?_, ?_⟩
  · intro h
    simp [ConfigManager.append_aggregates, ConfigManager.get_aggregates, h, pyOrList_some,
      pyOrList_none]
  · intro l h
    simp [ConfigManager.get_aggregates, h, pyOrList_some]
  · intro h
    simp [ConfigManager.get_aggregates, h, pyOrList_none]
  · intro h
    simp [ConfigManager.append_query_groups, ConfigManager.get_query_groups, h, pyOrList_some,
      pyOrList_none]
  · intro l h
    simp [ConfigManager.get_query_groups, h, pyOrList_some]
  · intro h
    simp [ConfigManager.get_query_groups, h, pyOrList_none]

/-- C9 witness: on `cmEx`, whose document has no aggregates and no
grouped-columns key, the round trips return exactly the appended lists. -/
theorem C9_witness :
    (cmEx._config.aggregates = none ∧ cmEx._config.grouped_columns = none) ∧
    (cmEx.append_aggregates aggsEx).get_aggregates = aggsEx ∧
    (cmEx.append_query_groups groupsEx).get_query_groups = groupsEx :=
  ⟨⟨rfl, rfl⟩, (C9_get_append_round_trip cmEx aggsEx groupsEx).1 rfl,
    (C9_get_append_round_trip cmEx aggsEx groupsEx).2.2.2.1 rfl⟩

/-- C10: neither builder mutates the manager (in particular not the
document): the post-state equals the input state, and a second identical
invocation on that post-state returns the same output sequence. -/
theorem C10_builders_do_not_mutate (m : ConfigManager) (agg_type arg_value : String)
    (supported_types : Option (List String)) (grouped_columns : List String) :
    (m.build_config_aggregates agg_type arg_value supported_types).2.1 = m ∧
    (m.build_config_grouped_columns grouped_columns).2 = m ∧
    ((m.build_config_aggregates agg_type arg_value supported_types).2.1.build_config_aggregates
        agg_type arg_value supported_types).1 =
      (m.build_config_aggregates agg_type arg_value supported_types).1 ∧
    ((m.build_config_grouped_columns grouped_columns).2.build_config_grouped_columns
        grouped_columns).1 =
      (m.build_config_grouped_columns grouped_columns).1 := by
  have h1 : (m.build_config_aggregates agg_type arg_value supported_types).2.1 = m := by
    unfold ConfigManager.build_config_aggregates
    split <;> rfl
  exact ⟨h1, rfl, by rw [h1], rfl⟩

/-- Inversion of a successful construction: every lookup of `__init__`
succeeded, both table handles were resolved through the source client, and
the resulting manager is the record of those values. -/
theorem init_ok_inv (config : Config) (sc tc : Client) (v : Bool) (m : ConfigManager)
    (h : ConfigManager.init config sc tc v = Except.ok m) :
    ∃ st ss source_table tt ts target_table,
      config.get_source_table = Except.ok st ∧
      config.get_source_schema = Except.ok ss ∧
      sc.table st ss = Except.ok source_table ∧
      config.get_target_table = Except.ok tt ∧
      config.get_target_schema = Except.ok ts ∧
      sc.table tt ts = Except.ok target_table ∧
      m = { _config := config, source_client := sc, target_client := tc,
            source_table := source_table, target_table := target_table, verbose := v } := by
  unfold ConfigManager.init at h
  cases h1 : config.get_source_table with
  | error e => simp [h1] at h
  | ok st =>
    simp only [h1] at h
    cases h2 : config.get_source_schema with
    | error e => simp [h2] at h
    | ok ss =>
      simp only [h2] at h
      cases h3 : sc.table st ss with
      | error e => simp [h3] at h
      | ok source_table =>
        simp only [h3] at h
        cases h4 : config.get_target_table with
        | error e => simp [h4] at h
        | ok tt =>
          simp only [h4] at h
          cases h5 : config.get_target_schema with
          | error e => simp [h5] at h
          | ok ts =>
            simp only [h5] at h
            cases h6 : sc.table tt ts with
            | error e => simp [h6] at h
            | ok target_table =>
              simp only [h6, Except.ok.injEq] at h
              exact ⟨st, ss, source_table, tt, ts, target_table,
                rfl, rfl, h3, rfl, rfl, h6, h.symm⟩

/-- C3: when construction succeeds, the target table handle was resolved by
calling `table` on the *source* client at the target table/schema names; the
target client is merely stored, and replacing it changes nothing in the
constructed manager except the stored field. -/
theorem C3_target_resolved_via_source_client (config : Config) (sc tc tc' : Client)
    (v : Bool) (m : ConfigManager)
    (h : ConfigManager.init config sc tc v = Except.ok m) :
    (∃ tt ts, config.get_target_table = Except.ok tt ∧
      config.get_target_schema = Except.ok ts ∧
      sc.table tt ts = Except.ok m.target_table) ∧
    m.target_client = tc ∧
    ConfigManager.init config sc tc' v = Except.ok { m with target_client := tc' } := by
  rcases init_ok_inv config sc tc v m h with
    ⟨st, ss, stab, tt, ts, ttab, h1, h2, h3, h4, h5, h6, rfl⟩
  refine ⟨⟨tt, ts, h4, h5, h6⟩, rfl, ?_⟩
  unfold ConfigManager.init
  simp only [h1, h2, h3, h4, h5, h6]

/-- C3 witness: a concrete construction through `clientEx`; swapping in the
always-failing `clientErrEx` as target client still succeeds, with only the
stored client field differing. -/
theorem C3_witness :
    ConfigManager.init configEx clientEx clientEx false = Except.ok mEx ∧
    ((∃ tt ts, configEx.get_target_table = Except.ok tt ∧
        configEx.get_target_schema = Except.ok ts ∧
        clientEx.table tt ts = Except.ok mEx.target_table) ∧
      mEx.target_client = clientEx ∧
      ConfigManager.init configEx clientEx clientErrEx false =
        Except.ok { mEx with target_client := clientErrEx }) :=
  ⟨rfl, C3_target_resolved_via_source_client configEx clientEx clientEx clientErrEx false mEx rfl⟩

/-- C5: on a document holding the required source keys, the target-side
accessors return the explicit target value when present and nonempty,
otherwise the source value, and always succeed. -/
theorem C5_target_accessors_default (m : ConfigManager) (ss st : String)
    (hs : m._config.schema_name = some ss) (ht : m._config.table_name = some st) :
    (∀ ts, m._config.target_schema_name = some ts → ts ≠ "" →
      m.get_target_schema = Except.ok ts) ∧
    ((m._config.target_schema_name = none ∨ m._config.target_schema_name = some "") →
      m.get_target_schema = Except.ok ss) ∧
    (∃ v, m.get_target_schema = Except.ok v) ∧
    (∀ tt, m._config.target_table_name = some tt → tt ≠ "" →
      m.get_target_table = Except.ok tt) ∧
    ((m._config.target_table_name = none ∨ m._config.target_table_name = some "") →
      m.get_target_table = Except.ok st) ∧
    (∃ v, m.get_target_table = Except.ok v) := by
  refine ⟨?_, ?_, ?_, ?_, ?_, ?_⟩
  · intro ts hts hne
    simp [ConfigManager.get_target_schema, Config.get_target_schema, hts, hne]
  · intro h
    rcases h with h | h <;>
      simp [ConfigManager.get_target_schema, Config.get_target_schema, h,
        Config.get_source_schema, hs, dictGet]
  · cases hts : m._config.target_schema_name with
    | none =>
      exact ⟨ss, by simp [ConfigManager.get_target_schema, Config.get_target_schema, hts,
        Config.get_source_schema, hs, dictGet]⟩
    | some s =>
      by_cases hse : s = ""
      · exact ⟨ss, by simp [ConfigManager.get_target_schema, Config.get_target_schema, hts,
          hse, Config.get_source_schema, hs, dictGet]⟩
      · exact ⟨s, by simp [ConfigManager.get_target_schema, Config.get_target_schema, hts,
          hse]⟩
  · intro tt htt hne
    simp [ConfigManager.get_target_table, Config.get_target_table, htt, hne]
  · intro h
    rcases h with h | h <;>
      simp [ConfigManager.get_target_table, Config.get_target_table, h,
        Config.get_source_table, ht, dictGet]
  · cases htt : m._config.target_table_name with
    | none =>
      exact ⟨st, by simp [ConfigManager.get_target_table, Config.get_target_table, htt,
        Config.get_source_table, ht, dictGet]⟩
    | some s =>
      by_cases hse : s = ""
      · exact ⟨st, by simp [ConfigManager.get_target_table, Config.get_target_table, htt,
          hse, Config.get_source_table, ht, dictGet]⟩
      · exact ⟨s, by simp [ConfigManager.get_target_table, Config.get_target_table, htt,
          hse]⟩

/-- C5 witness: on `cmEx` (explicit nonempty target schema `db2`, absent
target table key) the accessors return `db2` and fall back to `tbl`. -/
theorem C5_witness :
    (cmEx._config.schema_name = some "db" ∧ cmEx._config.table_name = some "tbl" ∧
      cmEx._config.target_schema_name = some "db2" ∧
      cmEx._config.target_table_name = none) ∧
    cmEx.get_target_schema = Except.ok "db2" ∧
    cmEx.get_target_table = Except.ok "tbl" :=
  ⟨⟨rfl, rfl, rfl, rfl⟩,
    (C5_target_accessors_default cmEx "db" "tbl" rfl rfl).1 "db2" rfl (by decide),
    (C5_target_accessors_default cmEx "db" "tbl" rfl rfl).2.2.2.2.1 (Or.inl rfl)⟩

/-- C8: when the table-identity record holds both required source keys, any
manager `build_config_manager` returns carries a document whose source
schema/table come from the record and whose target schema/table default,
exactly as Python `or` does, to the source values when the target-specific
value is absent or empty; a record lacking a required key makes the call
fail with the corresponding `KeyError` (source schema checked first). -/
theorem C8_build_config_manager_document (config_type source_conn target_conn : String)
    (sc tc : Client) (table_obj : TableObj) (v : Bool) :
    (∀ ss tn m, table_obj.schema_name = some ss → table_obj.table_name = some tn →
      ConfigManager.build_config_manager config_type source_conn target_conn sc tc
          table_obj v = Except.ok m →
      m._config.schema_name = some ss ∧ m._config.table_name = some tn ∧
      m._config.target_schema_name = some (pyOrStr table_obj.target_schema_name ss) ∧
      m._config.target_table_name = some (pyOrStr table_obj.target_table_name tn)) ∧
    (table_obj.schema_name = none →
      ConfigManager.build_config_manager config_type source_conn target_conn sc tc
          table_obj v = Except.error (Err.keyError ConfigKey.schema_name)) ∧
    (∀ ss, table_obj.schema_name = some ss → table_obj.table_name = none →
      ConfigManager.build_config_manager config_type source_conn target_conn sc tc
          table_obj v = Except.error (Err.keyError ConfigKey.table_name)) := by
  refine ⟨?_, ?_, ?_⟩
  · intro ss tn m hss htn hok
    unfold ConfigManager.build_config_manager at hok
    simp only [hss, htn, dictGet] at hok
    rcases init_ok_inv _ _ _ _ _ hok with
      ⟨st, s2, stab, tt, ts, ttab, _, _, _, _, _, _, rfl⟩
    exact ⟨rfl, rfl, rfl, rfl⟩
  · intro h
    unfold ConfigManager.build_config_manager
    simp [h, dictGet]
  · intro ss hss h
    unfold ConfigManager.build_config_manager
    simp [hss, h, dictGet]

/-- C8 witness: from `tobEx` (target schema absent, target table empty) the
factory builds `m8Ex`, whose document defaults both target names to the
source-side values; the failing target client is never consulted. -/
theorem C8_witness :
    (tobEx.schema_name = some "db" ∧ tobEx.table_name = some "tbl" ∧
      ConfigManager.build_config_manager "Column" "sc" "tc" clientEx clientErrEx
        tobEx false = Except.ok m8Ex) ∧
    (m8Ex._config.schema_name = some "db" ∧ m8Ex._config.table_name = some "tbl" ∧
      m8Ex._config.target_schema_name = some (pyOrStr tobEx.target_schema_name "db") ∧
      m8Ex._config.target_table_name = some (pyOrStr tobEx.target_table_name "tbl")) :=
  ⟨⟨rfl, rfl, rfl⟩,
    (C8_build_config_manager_document "Column" "sc" "tc" clientEx clientErrEx tobEx
        false).1 "db" "tbl" m8Ex rfl rfl rfl⟩

end DataValidation
